import Mathlib

/-!
Verification development for the `django-s3-express-cache` repository.

The Python module `django_s3_express_cache/s3_cache.py` is shallowly embedded
below.  Conventions of the embedding:

* Python strings are `List Char`; concrete keys are written as string
  literals via `String.data`.
* Python byte strings are `List Nat` (each entry a byte value).
* The 8-byte expiration header written by `struct.pack("d", x)` is modelled by
  its numeric value.  Every value the code actually packs is an integer in
  exact arithmetic (`time.time_ns()` is an integer number of nanoseconds and
  `timeout * 1e9` is an integer for the integer timeouts the backend
  produces), so headers and clock readings are modelled as `Int`; IEEE-754
  rounding of values below 2^53 is exact, and all concrete inputs used in the
  theorems stay far below that bound.
* A stored S3 object body is modelled by `BodyRep`: a well-formed body of at
  least 8 bytes is `BodyRep.framed header payload` (the unpacked header
  followed by the remaining payload bytes), and a malformed body of fewer
  than 8 bytes is kept as raw bytes `BodyRep.bytes bs` (only used with
  `bs.length < 8`).
* The S3 bucket is a last-write-wins association list from object keys to
  bodies; `put_object` prepends, lookups take the most recent entry.
* `pickle.dumps` / `pickle.loads` (the value serializer, an external
  collaborator per the spec) are abstract parameters `enc : A -> List Nat`
  and `dec : List Nat -> Option A`; `dec _ = none` models an unpickling
  error.
* Exceptions are `Except CacheError`.  The code raises `ValueError` with two
  distinct messages for the two key/timeout validation failures; the spec
  names them MalformedKeyError and TimeoutExceedsKeyLifetimeError, so they
  are two distinct constructors here.  `struct.error` (unpacking fewer than
  8 bytes) and unpickling failures get their own constructors.
* Python `re.match` with the module's two anchored patterns is embedded as a
  direct character-level matcher, including CPython's default semantics that
  `.` does not match a newline and `$` also matches just before a newline
  that ends the string.  `\d` is modelled as the ASCII digits, the only ones
  appearing in any input considered here.
-/

namespace S3Cache

/-- Decidable equality for `Except`, so that concrete runs of the embedded
operations can be checked by `decide`. -/
instance instDecEqExcept {ε α : Type} [DecidableEq ε] [DecidableEq α] :
    DecidableEq (Except ε α) := fun a b =>
  match a, b with
  | .error e, .error f =>
      if h : e = f then .isTrue (by rw [h]) else .isFalse (by simp [h])
  | .error _, .ok _ => .isFalse (by simp)
  | .ok _, .error _ => .isFalse (by simp)
  | .ok x, .ok y =>
      if h : x = y then .isTrue (by rw [h]) else .isFalse (by simp [h])

/-- Whether a string contains a newline character. -/
def containsNl : List Char → Bool
  | [] => false
  | c :: t => c = '\n' || containsNl t

/-- Embedding of the tail `(.*)$` of the module's two anchored patterns,
under CPython's default flags: `.` matches anything but `'\n'`, and `$`
matches at the end of the string or just before a terminating `'\n'`.  The
result is the text captured by the group, `none` when the tail cannot
match. -/
def tailMatch (l : List Char) : Option (List Char) :=
  if containsNl l = false then some l
  else if containsNl l.dropLast = false ∧ l.getLast? = some '\n' then
    some l.dropLast
  else none

/-- Embedding of `re.match` for the shared shape of the two patterns
`^(\d+-days?):(.*)$` and `^(\d+)-days?[:/](.*)$`: leading digits, the literal
`-day`, an optional `s`, one delimiter character drawn from `delims`, then
the `(.*)$` tail.  Returns `(digits, optional-s, delimiter, tail-group)`.
The call sites use `delims = [':']` and `delims = [':', '/']`; neither
contains `'s'`, which the optional-`s` backtracking below relies on. -/
def matchDaysTail (delims : List Char) (ds : List Char) (r2 : List Char) :
    Option (List Char × List Char × Char × List Char) :=
  match r2 with
  | [] => none
  | c :: r3 =>
    if c = 's' then
      match r3 with
      | [] => none
      | d :: r4 =>
        if delims.contains d then
          (tailMatch r4).map fun g2 => (ds, ['s'], d, g2)
        else none
    else if delims.contains c then
      (tailMatch r3).map fun g2 => (ds, [], c, g2)
    else none

/-- After the leading digit run, the patterns require the literal `-day`. -/
def matchAfterDigits (delims : List Char) (ds rest : List Char) :
    Option (List Char × List Char × Char × List Char) :=
  match rest with
  | '-' :: 'd' :: 'a' :: 'y' :: r2 => matchDaysTail delims ds r2
  | _ => none

/-- Full matcher for the anchored time-bucket patterns; see
`matchDaysTail` for the component layout. -/
def matchTimeDirective (delims : List Char) (l : List Char) :
    Option (List Char × List Char × Char × List Char) :=
  let ds := l.takeWhile Char.isDigit
  if ds.isEmpty then none
  else matchAfterDigits delims ds (l.dropWhile Char.isDigit)

/-- Embedding of Python `int` applied to the all-digit capture group. -/
def digitsVal (ds : List Char) : Nat :=
  ds.foldl (fun n c => 10 * n + (c.toNat - '0'.toNat)) 0

/-- Embedding of `turn_key_into_directory_path` (s3_cache.py, lines 11-37):
`re.match(r"^(^\d+-days?):(.*)$", key)`; on a match the module returns
`f"{group1}/{group2}"`, otherwise the key unchanged. -/
def turn_key_into_directory_path (key : List Char) : List Char :=
  match matchTimeDirective [':'] key with
  | none => key
  | some (ds, sPart, _, g2) =>
      ds ++ ('-' :: 'd' :: 'a' :: 'y' :: sPart) ++ '/' :: g2

/-- Embedding of the source function parsing the numeric day count from the
key (s3_cache.py, lines 40-66): `re.match(r"^(^\d+)-days?[:/](.*)$", key)`,
returning `int(group1)`; `none` models the raised
`ValueError("Key does not have a valid time prefix")`.  The source name ends
in a word this development avoids in identifiers, hence the shortened
name. -/
def parse_time_base (key : List Char) : Option Nat :=
  (matchTimeDirective [':', '/'] key).map fun t => digitsVal t.1

/-- Error taxonomy of the backend (spec section 7).  The module raises
`ValueError` with distinct messages for the first two; `structError` is
`struct.error` from unpacking fewer than 8 bytes, `pickleError` an
unpickling failure. -/
inductive CacheError : Type
  | malformedKey
  | timeoutExceedsKeyLifetime
  | structError
  | pickleError
deriving DecidableEq

/-- A stored S3 object body.  `framed h p` is a body of at least 8 bytes:
`h` is the value of the leading 8-byte `struct.pack("d", _)` header and `p`
the remaining payload bytes.  `bytes bs` keeps a malformed body of fewer
than 8 bytes as raw bytes; it is only ever used with `bs.length < 8`. -/
inductive BodyRep : Type
  | bytes (bs : List Nat)
  | framed (header : Int) (payload : List Nat)
deriving DecidableEq

/-- The S3 bucket: most recent `put_object` first. -/
def Store : Type := List (List Char × BodyRep)

instance : DecidableEq Store := by
  unfold Store; infer_instance

/-- `get_object`: the most recently put body at this key, if any. -/
def storeGet (s : Store) (p : List Char) : Option BodyRep :=
  match s with
  | [] => none
  | (q, b) :: t => if q = p then some b else storeGet t p

/-- `put_object`: last write wins. -/
def storePut (s : Store) (p : List Char) (b : BodyRep) : Store :=
  (p, b) :: s

/-- Immutable backend configuration.  `globalKeyPref` and `version` model
Django `BaseCache`'s `key_prefix` and `version` settings (defaults `""` and
`1`); `defaultTimeout` models `default_timeout` (default `300`, `none` when
the TIMEOUT setting is `None`). -/
structure CacheConfig : Type where
  globalKeyPref : List Char
  version : Nat
  defaultTimeout : Option Int
deriving DecidableEq

/-- The three shapes of the `timeout` argument: Django's `DEFAULT_TIMEOUT`
sentinel, an explicit `None` (persistent), or a number of seconds. -/
inductive TimeoutParam : Type
  | useDefault
  | noTimeout
  | secs (n : Int)
deriving DecidableEq

/-- Embedding of `S3ExpressCacheBackend._s3_compatible_key_func`
(s3_cache.py, lines 91-102): `f"{key}_{version}" if version else key`, then
`f"{key_prefix}/{_key}" if key_prefix else _key`.  Python truthiness makes
`version = 0` behave like no version. -/
def s3_compatible_key_func (key : List Char) (keyPref : List Char)
    (version : Nat) : List Char :=
  let k := if version ≠ 0 then key ++ '_' :: (Nat.repr version).data else key
  if keyPref ≠ [] then keyPref ++ '/' :: k else k

/-- Embedding of the overridden `make_key` (s3_cache.py, lines 113-118)
composed with Django `BaseCache.make_key` (an external collaborator:
`version = self.version` when the argument is `None`, then
`self.key_func(key, self.key_prefix, version)`).  The module's
`make_and_validate_key` additionally calls Django's `validate_key`, which
only emits warnings, so it coincides with `make_key` here. -/
def make_key (cfg : CacheConfig) (key : List Char) (version : Option Nat) :
    List Char :=
  s3_compatible_key_func (turn_key_into_directory_path key)
    cfg.globalKeyPref (version.getD cfg.version)

/-- The spec's `build_path(key, prefix, version)` (spec section 4.1), i.e.
`make_key` with the global key settings made explicit arguments. -/
def build_path (key : List Char) (keyPref : List Char) (version : Nat) :
    List Char :=
  s3_compatible_key_func (turn_key_into_directory_path key) keyPref version

/-- Embedding of `get_backend_timeout` (s3_cache.py, lines 120-129):
`DEFAULT_TIMEOUT` resolves to the configured default, then
`None if timeout is None else max(0, int(timeout))`. -/
def get_backend_timeout (cfg : CacheConfig) (t : TimeoutParam) : Option Nat :=
  match t with
  | .useDefault => cfg.defaultTimeout.map fun d => (max 0 d).toNat
  | .noTimeout => none
  | .secs n => some (max 0 n).toNat

/-- Embedding of `S3ExpressCacheBackend.set` (s3_cache.py, lines 131-160).
`nowNs` is the value of `time.time_ns()`.  The stored header is
`time.time_ns() + timeout * 1e9 if timeout else 0`: note the Python
conditional expression makes a normalized timeout of `0` fall into the
`else 0` branch, and that the sum is in nanoseconds. -/
def cache_set {A : Type} (cfg : CacheConfig) (enc : A → List Nat)
    (store : Store) (key : List Char) (value : A) (timeout : TimeoutParam)
    (version : Option Nat) (nowNs : Int) : Except CacheError Store :=
  let k := make_key cfg key version
  match get_backend_timeout cfg timeout with
  | none =>
      Except.ok (storePut store k (.framed 0 (enc value)))
  | some t =>
      match parse_time_base k with
      | none => Except.error .malformedKey
      | some n =>
          if t / (24 * 60 * 60) > n then
            Except.error .timeoutExceedsKeyLifetime
          else
            let expiration : Int :=
              if t ≠ 0 then nowNs + (t : Int) * 1000000000 else 0
            Except.ok (storePut store k (.framed expiration (enc value)))

/-- Embedding of `S3ExpressCacheBackend.has_key` (s3_cache.py, lines
162-178).  `nowS` is `datetime.now().timestamp()`, in seconds.  On a body of
fewer than 8 bytes, `response["Body"].read(amt=8)` returns fewer than 8
bytes and `struct.unpack("d", _)` raises `struct.error`. -/
def cache_has_key (cfg : CacheConfig) (store : Store) (key : List Char)
    (version : Option Nat) (nowS : Int) : Except CacheError Bool :=
  let k := make_key cfg key version
  match storeGet store k with
  | none => Except.ok false
  | some (.bytes _) => Except.error .structError
  | some (.framed h _) =>
      if h = 0 then Except.ok true else Except.ok (decide (h > nowS))

/-- Embedding of `S3ExpressCacheBackend.get` (s3_cache.py, lines 189-230).
The chunked loop over the body is: unpack the first 8 bytes as the header
(raising `struct.error` when a nonempty body has fewer than 8 bytes, and
leaving the accumulator empty when the body is empty), return the default
when the header is nonzero and in the past, otherwise concatenate the
remaining chunks; an empty accumulator yields the default, else the payload
is unpickled. -/
def cache_get {A : Type} (cfg : CacheConfig) (dec : List Nat → Option A)
    (store : Store) (key : List Char) (default : A) (version : Option Nat)
    (nowS : Int) : Except CacheError A :=
  let k := make_key cfg key version
  match storeGet store k with
  | none => Except.ok default
  | some (.bytes bs) =>
      if bs.isEmpty then Except.ok default else Except.error .structError
  | some (.framed h payload) =>
      let body : Except CacheError A :=
        if payload.isEmpty then Except.ok default
        else
          match dec payload with
          | some v => Except.ok v
          | none => Except.error .pickleError
      if h = 0 then body
      else if nowS > h then Except.ok default
      else body

/-- Embedding of `S3ExpressCacheBackend.add` (s3_cache.py, lines 180-187):
`has_key` first, returning `False` without writing when present, otherwise
`set` with the same arguments and `True`.  Returns the flag and the
resulting bucket state. -/
def cache_add {A : Type} (cfg : CacheConfig) (enc : A → List Nat)
    (store : Store) (key : List Char) (value : A) (timeout : TimeoutParam)
    (version : Option Nat) (nowS : Int) (nowNs : Int) :
    Except CacheError (Bool × Store) :=
  match cache_has_key cfg store key version nowS with
  | .error e => Except.error e
  | .ok true => Except.ok (false, store)
  | .ok false =>
      (cache_set cfg enc store key value timeout version nowNs).map
        fun s => (true, s)

/-- Identity serializer on raw byte lists, used to instantiate the abstract
pickle collaborator in concrete runs. -/
def encId : List Nat → List Nat := fun l => l

/-- Decoder matching `encId`; total, so it round-trips exactly. -/
def decId : List Nat → Option (List Nat) := fun l => some l

/-- Backend configuration with Django's default settings: empty key
prefix, version 1, default timeout 300 seconds. -/
def cfg0 : CacheConfig := ⟨[], 1, some 300⟩

/-! ### Helper lemmas about the key matcher -/

lemma containsNl_append (a b : List Char) :
    containsNl (a ++ b) = (containsNl a || containsNl b) := by
  induction a with
  | nil => simp [containsNl]
  | cons c t ih => simp [containsNl, ih, Bool.or_assoc]

lemma tailMatch_of_no_newline (l : List Char) (h : containsNl l = false) :
    tailMatch l = some l := by
  simp [tailMatch, h]

lemma tailMatch_concat_newline (l : List Char) (h : containsNl l = false) :
    tailMatch (l ++ ['\n']) = some l := by
  have h1 : containsNl (l ++ ['\n']) = true := by
    simp [containsNl_append, containsNl]
  have h2 : (l ++ ['\n']).dropLast = l := List.dropLast_concat
  have h3 : (l ++ ['\n']).getLast? = some '\n' := List.getLast?_concat _
  simp [tailMatch, h1, h2, h3, h]

lemma span_digits_append (D tl : List Char) (hD : ∀ c ∈ D, c.isDigit) :
    (D ++ '-' :: tl).takeWhile Char.isDigit = D ∧
    (D ++ '-' :: tl).dropWhile Char.isDigit = '-' :: tl := by
  have hdash : Char.isDigit '-' = false := by decide
  induction D with
  | nil => simp [List.takeWhile_cons, List.dropWhile_cons, hdash]
  | cons c t ih =>
    have hc : c.isDigit := hD c (by simp)
    have ih' := ih fun x hx => hD x (by simp [hx])
    simp [List.takeWhile_cons, List.dropWhile_cons, hc, ih'.1, ih'.2]

/-- Behaviour of the matcher on a string of the directive shape: leading
digits `D`, the literal `-day`, `S` either empty or `"s"`, a candidate
delimiter `d` that is not `'s'`, and a tail `R`. -/
lemma matchTimeDirective_structural (delims D S : List Char) (d : Char)
    (R : List Char) (hD0 : D ≠ []) (hD : ∀ c ∈ D, c.isDigit)
    (hS : S = [] ∨ S = ['s']) (hds : d ≠ 's') :
    matchTimeDirective delims (D ++ '-' :: 'd' :: 'a' :: 'y' :: (S ++ d :: R)) =
      if delims.contains d then (tailMatch R).map fun g2 => (D, S, d, g2)
      else none := by
  have hspan := span_digits_append D ('d' :: 'a' :: 'y' :: (S ++ d :: R)) hD
  have hne : D.isEmpty = false := by
    cases D with
    | nil => exact absurd rfl hD0
    | cons c t => rfl
  rw [matchTimeDirective]
  simp only [hspan.1, hspan.2, hne, Bool.false_eq_true, if_false]
  rw [matchAfterDigits]
  rcases hS with h | h <;> subst h
  · simp only [List.nil_append]
    rw [matchDaysTail.eq_def]
    simp [hds]
  · simp only [List.cons_append, List.nil_append]
    rw [matchDaysTail.eq_def]
    simp

/-- A key whose first character is not a digit never matches either
pattern. -/
lemma matchTimeDirective_head_not_digit (delims : List Char) (c : Char)
    (l : List Char) (hc : c.isDigit = false) :
    matchTimeDirective delims (c :: l) = none := by
  rw [matchTimeDirective]
  simp [List.takeWhile_cons, hc]

lemma parse_time_base_head_not_digit (c : Char) (l : List Char)
    (hc : c.isDigit = false) : parse_time_base (c :: l) = none := by
  rw [parse_time_base, matchTimeDirective_head_not_digit _ _ _ hc]
  rfl

/-! ### Decimal representation of version numbers -/

lemma toDigitsCore_append (fuel : Nat) :
    ∀ (n : Nat) (ds : List Char),
      Nat.toDigitsCore 10 fuel n ds = Nat.toDigitsCore 10 fuel n [] ++ ds := by
  induction fuel with
  | zero => intro n ds; rfl
  | succ fuel ih =>
    intro n ds
    rw [Nat.toDigitsCore, Nat.toDigitsCore]
    by_cases h : n / 10 = 0
    · simp [h]
    · simp only [h, if_false]
      rw [ih (n / 10) (Nat.digitChar (n % 10) :: ds),
        ih (n / 10) [Nat.digitChar (n % 10)], List.append_assoc]
      rfl

lemma digitChar_sub_zero (n : Nat) (h : n < 10) :
    (Nat.digitChar n).toNat - '0'.toNat = n := by
  interval_cases n <;> decide

lemma digitChar_isDigit (n : Nat) (h : n < 10) :
    (Nat.digitChar n).isDigit = true := by
  interval_cases n <;> decide

lemma digitsVal_concat (a : List Char) (c : Char) :
    digitsVal (a ++ [c]) = 10 * digitsVal a + (c.toNat - '0'.toNat) := by
  rw [digitsVal, List.foldl_append]
  rfl

lemma toDigitsCore_val (fuel : Nat) :
    ∀ n : Nat, n < 10 ^ fuel →
      digitsVal (Nat.toDigitsCore 10 fuel n []) = n ∧
      ∀ c ∈ Nat.toDigitsCore 10 fuel n [], c.isDigit = true := by
  induction fuel with
  | zero =>
    intro n hn
    interval_cases n
    exact ⟨rfl, by intro c hc; cases hc⟩
  | succ fuel ih =>
    intro n hn
    have hmod : n % 10 < 10 := Nat.mod_lt _ (by norm_num)
    rw [Nat.toDigitsCore]
    by_cases h : n / 10 = 0
    · have hn10 : n < 10 := by
        have := Nat.div_add_mod n 10
        omega
      have hmodn : n % 10 = n := Nat.mod_eq_of_lt hn10
      refine ⟨?_, ?_⟩
      · simp only [h, if_true]
        show digitsVal ([] ++ [Nat.digitChar (n % 10)]) = n
        rw [digitsVal_concat, digitChar_sub_zero _ hmod, hmodn]
        simp [digitsVal]
      · simp only [h, if_true]
        intro c hc
        rcases List.mem_singleton.mp hc with rfl
        exact digitChar_isDigit _ hmod
    · have hdiv : n / 10 < 10 ^ fuel := by
        rw [Nat.div_lt_iff_lt_mul (by norm_num : 0 < 10)]
        calc n < 10 ^ (fuel + 1) := hn
          _ = 10 ^ fuel * 10 := by rw [pow_succ]
      obtain ⟨ihv, ihd⟩ := ih (n / 10) hdiv
      simp only [h, if_false]
      rw [toDigitsCore_append]
      refine ⟨?_, ?_⟩
      · rw [digitsVal_concat, ihv, digitChar_sub_zero _ hmod,
          Nat.div_add_mod]
      · intro c hc
        rcases List.mem_append.mp hc with hc | hc
        · exact ihd c hc
        · rcases List.mem_singleton.mp hc with rfl
          exact digitChar_isDigit _ hmod

lemma repr_data_eq (n : Nat) :
    (Nat.repr n).data = Nat.toDigitsCore 10 (n + 1) n [] := rfl

lemma lt_ten_pow_succ (n : Nat) : n < 10 ^ (n + 1) :=
  lt_of_lt_of_le (Nat.lt_pow_self (by norm_num) n)
    (Nat.pow_le_pow_right (by norm_num) (Nat.le_succ n))

lemma digitsVal_repr (n : Nat) : digitsVal (Nat.repr n).data = n := by
  rw [repr_data_eq]
  exact (toDigitsCore_val (n + 1) n (lt_ten_pow_succ n)).1

lemma repr_data_digits (n : Nat) :
    ∀ c ∈ (Nat.repr n).data, c.isDigit = true := by
  rw [repr_data_eq]
  exact (toDigitsCore_val (n + 1) n (lt_ten_pow_succ n)).2

lemma repr_data_inj {a b : Nat} (h : (Nat.repr a).data = (Nat.repr b).data) :
    a = b := by
  have := congrArg digitsVal h
  rwa [digitsVal_repr, digitsVal_repr] at this

lemma containsNl_of_digits (l : List Char) (h : ∀ c ∈ l, c.isDigit = true) :
    containsNl l = false := by
  induction l with
  | nil => rfl
  | cons c t ih =>
    have hc : c.isDigit = true := h c (by simp)
    have hcn : ¬ (c = '\n') := by
      intro h'
      subst h'
      exact absurd hc (by decide)
    rw [containsNl, decide_eq_false hcn, ih fun x hx => h x (by simp [hx])]
    rfl

/-! ### Shape of built storage paths -/

/-- The version suffix `_{version}` appended by `s3_compatible_key_func`
(empty when the version is falsy). -/
def vsuffix (v : Nat) : List Char :=
  if v ≠ 0 then '_' :: (Nat.repr v).data else []

lemma containsNl_vsuffix (v : Nat) : containsNl (vsuffix v) = false := by
  rw [vsuffix]
  by_cases h : v ≠ 0
  · rw [if_pos h, containsNl, containsNl_of_digits _ (repr_data_digits v)]
    rfl
  · rw [if_neg h]
    rfl

lemma key_func_pref_nil (k : List Char) (v : Nat) :
    s3_compatible_key_func k [] v = k ++ vsuffix v := by
  rw [s3_compatible_key_func, vsuffix]
  by_cases h : v ≠ 0 <;> simp [h]

lemma key_func_pref_cons (k : List Char) (c : Char) (cs : List Char)
    (v : Nat) :
    s3_compatible_key_func k (c :: cs) v =
      c :: (cs ++ '/' :: (k ++ vsuffix v)) := by
  rw [s3_compatible_key_func, vsuffix]
  by_cases h : v ≠ 0 <;> simp [h]

/-- With an empty global key setting, the storage path built for a key of
the directive shape `D-day[S](:|/)R` (with `R` newline-free) is always
`D-day[S]/R` followed by the version suffix: the colon delimiter is
rewritten to a slash and the slash delimiter is kept. -/
lemma make_key_directive (cfg : CacheConfig) (hkp : cfg.globalKeyPref = [])
    (D S R : List Char) (d : Char) (version : Option Nat)
    (hD0 : D ≠ []) (hD : ∀ c ∈ D, c.isDigit) (hS : S = [] ∨ S = ['s'])
    (hd : d = ':' ∨ d = '/') (hR : containsNl R = false) :
    make_key cfg (D ++ '-' :: 'd' :: 'a' :: 'y' :: (S ++ d :: R)) version =
      D ++ '-' :: 'd' :: 'a' :: 'y' ::
        (S ++ '/' :: (R ++ vsuffix (version.getD cfg.version))) := by
  rw [make_key, hkp, key_func_pref_nil, turn_key_into_directory_path.eq_def]
  rcases hd with rfl | rfl
  · rw [matchTimeDirective_structural [':'] D S ':' R hD0 hD hS (by decide),
      if_pos (by decide), tailMatch_of_no_newline R hR]
    simp [List.append_assoc]
  · rw [matchTimeDirective_structural [':'] D S '/' R hD0 hD hS (by decide),
      if_neg (by decide)]
    simp [List.append_assoc]

/-- Parsing the day count back from a built path of the shape
`D-day[S]/T` with `T` newline-free yields the numeric value of `D`. -/
lemma parse_time_base_directive (D S T : List Char)
    (hD0 : D ≠ []) (hD : ∀ c ∈ D, c.isDigit) (hS : S = [] ∨ S = ['s'])
    (hT : containsNl T = false) :
    parse_time_base (D ++ '-' :: 'd' :: 'a' :: 'y' :: (S ++ '/' :: T)) =
      some (digitsVal D) := by
  rw [parse_time_base,
    matchTimeDirective_structural [':', '/'] D S '/' T hD0 hD hS (by decide),
    if_pos (by decide), tailMatch_of_no_newline T hT]
  rfl

/-! ### Helper lemmas about the bucket -/

lemma storeGet_put (s : Store) (p : List Char) (b : BodyRep) :
    storeGet (storePut s p b) p = some b := by
  simp [storeGet, storePut]

/-! ### Claim C1 -/

/-- C1: the claim says the 8-byte header holds the absolute
Unix-epoch-seconds expiration `now + s`.  The code instead writes
`time.time_ns() + timeout * 1e9`, a nanosecond value: at `time.time_ns() =
10^9` (one second after the epoch) with a 60-second timeout, the stored
header is `61_000_000_000`, not the `61` seconds the claim requires — while
the readers compare the header against `datetime.now().timestamp()`, which
is in seconds.  The persistent half of the claim does hold: an explicit
`None` timeout stores header `0`. -/
theorem c1_nanosecond_header :
    cache_set cfg0 encId [] "7-days:k".data [1, 2, 3] (.secs 60) none
        1000000000
      = Except.ok [("7-days/k_1".data, .framed 61000000000 [1, 2, 3])] ∧
    (61000000000 : Int) ≠ 1 + 60 ∧
    cache_set cfg0 encId [] "7-days:k".data [1, 2, 3] .noTimeout none
        1000000000
      = Except.ok [("7-days/k_1".data, .framed 0 [1, 2, 3])] := by
  decide

/-! ### Claim C2 -/

/-- C2: the claim says a zero-or-negative timeout is clamped to zero and the
entry is then effectively immediately expired, never persistent.  The code
does clamp to zero, but the conditional expression
`time.time_ns() + timeout * 1e9 if timeout else 0` treats the clamped `0`
as falsy and stores header `0.0` — the persistent marker.  Consequently, at
any strictly later time `has_key` returns `True` and `get` returns the
stored value, contradicting the claim and the code's own comment that
non-positive values cause the key to be deleted. -/
theorem c2_zero_timeout_stored_persistent :
    get_backend_timeout cfg0 (.secs (-5)) = some 0 ∧
    get_backend_timeout cfg0 (.secs 0) = some 0 ∧
    cache_set cfg0 encId [] "7-days:k".data [1, 2, 3] (.secs 0) none 5
      = Except.ok [("7-days/k_1".data, .framed 0 [1, 2, 3])] ∧
    cache_has_key cfg0 [("7-days/k_1".data, .framed 0 [1, 2, 3])]
        "7-days:k".data none 1000000
      = Except.ok true ∧
    cache_get cfg0 decId [("7-days/k_1".data, .framed 0 [1, 2, 3])]
        "7-days:k".data [] none 1000000
      = Except.ok [1, 2, 3] := by
  decide

/-! ### Claim C3 -/

/-- C3 counterexample: on a stored body of 4 bytes, `get` raises
`struct.error` instead of returning the caller's default, and `has_key`
raises instead of returning false — contradicting the claim that neither
operation raises past the read boundary. -/
theorem c3_counterexample :
    cache_get cfg0 decId [("k_1".data, .bytes [0, 0, 0, 0])] "k".data
        ([] : List Nat) none 0
      = Except.error .structError ∧
    cache_get cfg0 decId [("k_1".data, .bytes [0, 0, 0, 0])] "k".data
        ([] : List Nat) none 0
      ≠ Except.ok [] ∧
    cache_has_key cfg0 [("k_1".data, .bytes [0, 0, 0, 0])] "k".data none 0
      = Except.error .structError := by
  decide

/-- C3 (amended): for a stored body shorter than 8 bytes, `get` returns the
caller's default only when the body is empty and raises `struct.error`
otherwise, and `has_key` always raises `struct.error` (reading
`min(8, len)` bytes and unpacking them fails for any length below 8). -/
theorem c3_short_body_behavior {A : Type} (cfg : CacheConfig)
    (dec : List Nat → Option A) (store : Store) (key : List Char)
    (default : A) (version : Option Nat) (nowS : Int) (bs : List Nat)
    (hlen : bs.length < 8)
    (hstore : storeGet store (make_key cfg key version) = some (.bytes bs)) :
    (bs = [] →
      cache_get cfg dec store key default version nowS = Except.ok default) ∧
    (bs ≠ [] →
      cache_get cfg dec store key default version nowS =
        Except.error .structError) ∧
    cache_has_key cfg store key version nowS = Except.error .structError := by
  refine ⟨?_, ?_, ?_⟩
  · intro h
    subst h
    simp [cache_get, hstore]
  · intro h
    have h' : bs.isEmpty = false := by
      cases bs with
      | nil => exact absurd rfl h
      | cons a t => rfl
    simp [cache_get, hstore, h']
  · simp [cache_has_key, hstore]

/-- C3 witness: a concrete 3-byte body. -/
theorem c3_short_body_behavior_witness :
    cache_get cfg0 decId [("q_1".data, .bytes [0, 0, 0])] "q".data
        ([] : List Nat) none 5
      = Except.error .structError ∧
    cache_has_key cfg0 [("q_1".data, .bytes [0, 0, 0])] "q".data none 5
      = Except.error .structError :=
  ⟨(c3_short_body_behavior cfg0 decId _ "q".data [] none 5 [0, 0, 0]
      (by decide) (by decide)).2.1 (by decide),
   (c3_short_body_behavior cfg0 decId _ "q".data [] none 5 [0, 0, 0]
      (by decide) (by decide)).2.2⟩

/-! ### Claim C4 -/

/-- C4: for a stored entry whose header is a nonzero timestamp strictly in
the past, `get` returns the caller's default (the payload is never decoded)
and `has_key` returns false. -/
theorem c4_expired_entry_returns_default {A : Type} (cfg : CacheConfig)
    (dec : List Nat → Option A) (store : Store) (key : List Char)
    (default : A) (version : Option Nat) (nowS h : Int)
    (payload : List Nat)
    (hstore : storeGet store (make_key cfg key version) =
      some (.framed h payload))
    (hz : h ≠ 0) (hlt : h < nowS) :
    cache_get cfg dec store key default version nowS = Except.ok default ∧
    cache_has_key cfg store key version nowS = Except.ok false := by
  constructor
  · simp only [cache_get, hstore]
    rw [if_neg hz, if_pos hlt]
  · simp only [cache_has_key, hstore]
    rw [if_neg hz, decide_eq_false (by omega : ¬ h > nowS)]

/-- C4 witness: header 50, read at time 100. -/
theorem c4_expired_entry_returns_default_witness :
    cache_get cfg0 decId [("k_1".data, .framed 50 [7])] "k".data
        ([] : List Nat) none 100
      = Except.ok [] ∧
    cache_has_key cfg0 [("k_1".data, .framed 50 [7])] "k".data none 100
      = Except.ok false :=
  c4_expired_entry_returns_default cfg0 decId _ "k".data [] none 100 50 [7]
    (by decide) (by decide) (by decide)

/-! ### Claim C5 -/

/-- C5 counterexample: the key `"7-days/a\n"` carries a 7-days directive
(the module's own parser returns 7 on it, since `$` matches before a
terminating newline), and an 8-day timeout exceeds 7 days, so the claim
requires `TimeoutExceedsKeyLifetimeError`; but `set` appends the version
suffix after the newline, the rebuilt path no longer parses, and the
malformed-key error is raised instead. -/
theorem c5_counterexample :
    parse_time_base "7-days/a\n".data = some 7 ∧
    (691200 : Nat) / 86400 > 7 ∧
    cache_set cfg0 encId [] "7-days/a\n".data [1] (.secs 691200) none 0
      = Except.error .malformedKey ∧
    cache_set cfg0 encId [] "7-days/a\n".data [1] (.secs 691200) none 0
      ≠ Except.error .timeoutExceedsKeyLifetime := by
  decide

/-- C5 (amended): with an empty global key setting, for every key of the
directive shape `D-day[s](:|/)R` whose remainder `R` contains no newline,
and every timeout normalizing to `s` seconds, `set` raises
`TimeoutExceedsKeyLifetimeError` if and only if `s / 86400` exceeds the
day count `N` encoded by `D`. -/
theorem c5_timeout_vs_bucket_iff {A : Type} (cfg : CacheConfig)
    (enc : A → List Nat) (store : Store) (D S R : List Char) (d : Char)
    (value : A) (timeout : TimeoutParam) (version : Option Nat)
    (nowNs : Int) (s : Nat)
    (hkp : cfg.globalKeyPref = [])
    (hD0 : D ≠ []) (hD : ∀ c ∈ D, c.isDigit) (hS : S = [] ∨ S = ['s'])
    (hd : d = ':' ∨ d = '/') (hR : containsNl R = false)
    (ht : get_backend_timeout cfg timeout = some s) :
    (cache_set cfg enc store (D ++ '-' :: 'd' :: 'a' :: 'y' :: (S ++ d :: R))
        value timeout version nowNs
      = Except.error .timeoutExceedsKeyLifetime)
      ↔ s / 86400 > digitsVal D := by
  have hsuf : containsNl (R ++ vsuffix (version.getD cfg.version)) = false := by
    rw [containsNl_append, hR, containsNl_vsuffix]
    rfl
  simp only [cache_set, ht,
    make_key_directive cfg hkp D S R d version hD0 hD hS hd hR,
    parse_time_base_directive D S _ hD0 hD hS hsuf]
  have h86 : (24 * 60 * 60 : Nat) = 86400 := by norm_num
  rw [h86]
  by_cases hgt : s / 86400 > digitsVal D
  · simp [hgt]
  · simp [hgt]

/-- C5 witness: a 6-day timeout on a `"7-days:k"` key does not raise the
lifetime error. -/
theorem c5_timeout_vs_bucket_iff_witness :
    ((cache_set cfg0 encId [] ("7".data ++ '-' :: 'd' :: 'a' :: 'y' ::
          (['s'] ++ ':' :: "k".data)) [1] (.secs 518400) none 0
        = Except.error .timeoutExceedsKeyLifetime)
      ↔ (518400 : Nat) / 86400 > digitsVal "7".data) ∧
    ¬ ((518400 : Nat) / 86400 > digitsVal "7".data) :=
  ⟨c5_timeout_vs_bucket_iff cfg0 encId [] "7".data ['s'] "k".data ':' [1]
      (.secs 518400) none 0 518400 rfl (by decide) (by decide)
      (Or.inr rfl) (Or.inl rfl) (by decide) (by decide),
   by decide⟩

/-! ### Claim C6 -/

/-- C6 counterexample: `build_path` is not injective on (key, prefix,
version) triples — the key `"x_1"` with the falsy version `0` and the key
`"x"` with version `1` build the same path. -/
theorem c6_counterexample :
    build_path "x_1".data [] 0 = build_path "x".data [] 1 ∧
    ("x_1".data, ([] : List Char), (0 : Nat)) ≠
      ("x".data, ([] : List Char), (1 : Nat)) := by
  decide

/-- C6 (amended): for a fixed key and prefix, distinct truthy (nonzero)
versions always build distinct paths, so values stored under different
versions never collide. -/
theorem c6_build_path_version_injective (key keyPref : List Char)
    (v1 v2 : Nat) (h1 : v1 ≠ 0) (h2 : v2 ≠ 0) (hne : v1 ≠ v2) :
    build_path key keyPref v1 ≠ build_path key keyPref v2 := by
  intro h
  rw [build_path, build_path] at h
  by_cases hkp : keyPref = []
  · subst hkp
    rw [key_func_pref_nil, key_func_pref_nil, vsuffix, vsuffix,
      if_pos h1, if_pos h2] at h
    have h' := List.append_cancel_left h
    exact hne (repr_data_inj (List.cons_injective h'))
  · obtain ⟨c, cs, rfl⟩ := List.exists_cons_of_ne_nil hkp
    rw [key_func_pref_cons, key_func_pref_cons, vsuffix, vsuffix,
      if_pos h1, if_pos h2] at h
    have h' := List.append_cancel_left (List.cons_injective h)
    have h'' := List.append_cancel_left (List.cons_injective h')
    exact hne (repr_data_inj (List.cons_injective h''))

/-- C6 witness: versions 1 and 2 of the key `"x"` build distinct paths. -/
theorem c6_build_path_version_injective_witness :
    build_path "x".data [] 1 ≠ build_path "x".data [] 2 :=
  c6_build_path_version_injective "x".data [] 1 2 (by decide) (by decide)
    (by decide)

/-! ### Claim C7 -/

/-- C7 counterexample: the claim says that with any non-empty global key
setting, every `set` with a non-persistent timeout raises the malformed-key
error.  But a global key setting that itself starts with a time-bucket
directive, here `"3-days"`, makes the built path parse again: the write
succeeds (validated against the prefix's own day count). -/
theorem c7_counterexample :
    ("3-days".data : List Char) ≠ [] ∧
    cache_set ⟨"3-days".data, 1, some 300⟩ encId [] "7-days:k".data
        [1, 2, 3] (.secs 60) none 0
      = Except.ok
          [("3-days/7-days/k_1".data, .framed 60000000000 [1, 2, 3])] := by
  decide

/-- C7 (amended): `set` validates the directive on the fully built storage
path, not the logical key; consequently, whenever the configured global key
setting is non-empty and starts with a non-digit character, every `set`
whose timeout normalizes to a number of seconds raises the malformed-key
error, whatever the logical key. -/
theorem c7_nondigit_global_key_malformed {A : Type} (cfg : CacheConfig)
    (enc : A → List Nat) (store : Store) (key : List Char) (value : A)
    (timeout : TimeoutParam) (version : Option Nat) (nowNs : Int)
    (c : Char) (cs : List Char) (t : Nat)
    (hkp : cfg.globalKeyPref = c :: cs) (hc : c.isDigit = false)
    (ht : get_backend_timeout cfg timeout = some t) :
    cache_set cfg enc store key value timeout version nowNs
      = Except.error .malformedKey := by
  have hmk : make_key cfg key version =
      c :: (cs ++ '/' :: (turn_key_into_directory_path key ++
        vsuffix (version.getD cfg.version))) := by
    rw [make_key, hkp, key_func_pref_cons]
  simp only [cache_set, ht, hmk, parse_time_base_head_not_digit c _ hc]

/-- C7 witness: global key setting `"p"`, a directive-carrying logical key
and a 60-second timeout still raise the malformed-key error. -/
theorem c7_nondigit_global_key_malformed_witness :
    cache_set ⟨"p".data, 1, some 300⟩ encId [] "7-days:k".data [1]
        (.secs 60) none 0
      = Except.error .malformedKey :=
  c7_nondigit_global_key_malformed ⟨"p".data, 1, some 300⟩ encId []
    "7-days:k".data [1] (.secs 60) none 0 'p' [] 60 rfl (by decide)
    (by decide)

/-! ### Claim C8 -/

/-- C8: round trip.  For a serializer that round-trips exactly (and, as
`pickle.dumps` does, produces non-empty bytes), a `set` with the explicit
persistent timeout followed by a `get` of the same key and version returns
the stored value unchanged, at any read time.  The directive-free
hypothesis on the key matches the claim; a persistent `set` skips the
directive validation, so the proof holds for it. -/
theorem c8_persistent_roundtrip {A : Type} (cfg : CacheConfig)
    (enc : A → List Nat) (dec : List Nat → Option A) (store store' : Store)
    (key : List Char) (v : A) (default : A) (version : Option Nat)
    (nowNs nowS : Int)
    (_hnd : parse_time_base key = none)
    (hrt : dec (enc v) = some v) (hne : enc v ≠ [])
    (hset : cache_set cfg enc store key v .noTimeout version nowNs =
      Except.ok store') :
    cache_get cfg dec store' key default version nowS = Except.ok v := by
  have hstore' : store' =
      storePut store (make_key cfg key version) (.framed 0 (enc v)) := by
    simp only [cache_set, get_backend_timeout] at hset
    exact (Except.ok.injEq _ _).mp hset.symm
  have hemp : (enc v).isEmpty = false := by
    cases henc : enc v with
    | nil => exact absurd henc hne
    | cons a t => rfl
  subst hstore'
  simp [cache_get, storeGet_put, hemp, hrt]

/-- C8 witness: storing the bytes `[4, 5]` under `"k"` persistently and
reading them back much later. -/
theorem c8_persistent_roundtrip_witness :
    cache_get cfg0 decId [("k_1".data, .framed 0 [4, 5])] "k".data
        ([] : List Nat) none 999
      = Except.ok [4, 5] :=
  c8_persistent_roundtrip cfg0 encId decId [] _ "k".data [4, 5] [] none 77
    999 (by decide) (by decide) (by decide) (by decide)

/-! ### Claim C9 -/

/-- C9: when `has_key` reports the key present, `add` returns false and
leaves the bucket (hence the stored object at that path) unchanged, issuing
no write; when `has_key` reports it absent, `add` performs `set` with the
same arguments and returns true alongside the bucket `set` produced. -/
theorem c9_add_semantics {A : Type} (cfg : CacheConfig)
    (enc : A → List Nat) (store : Store) (key : List Char) (value : A)
    (timeout : TimeoutParam) (version : Option Nat) (nowS nowNs : Int) :
    (cache_has_key cfg store key version nowS = Except.ok true →
      cache_add cfg enc store key value timeout version nowS nowNs =
        Except.ok (false, store)) ∧
    (cache_has_key cfg store key version nowS = Except.ok false →
      cache_add cfg enc store key value timeout version nowS nowNs =
        (cache_set cfg enc store key value timeout version nowNs).map
          fun s => (true, s)) := by
  constructor <;> intro h <;> simp [cache_add, h]

/-- C9 witness: an `add` over an existing persistent entry returns false
and leaves the bucket unchanged. -/
theorem c9_add_semantics_witness :
    cache_add cfg0 encId [("k_1".data, .framed 0 [4])] "k".data [9]
        .noTimeout none 0 0
      = Except.ok (false, [("k_1".data, .framed 0 [4])]) :=
  (c9_add_semantics cfg0 encId [("k_1".data, .framed 0 [4])] "k".data [9]
    .noTimeout none 0 0).1 (by decide)

/-! ### Claim C10 -/

/-- C10 counterexample: the key `"7-days:a\n"` matches the module's pattern
(CPython's `$` matches just before a terminating newline), but the rewrite
returns `"7-days/a"`, not the claim's colon-to-slash image `"7-days/a\n"` —
the trailing newline is dropped, so the result is neither the rewritten key
the claim specifies nor the unchanged key. -/
theorem c10_counterexample :
    matchTimeDirective [':'] "7-days:a\n".data =
      some ("7".data, ['s'], ':', "a".data) ∧
    turn_key_into_directory_path "7-days:a\n".data = "7-days/a".data ∧
    "7-days/a".data ≠ "7-days/a\n".data ∧
    "7-days/a".data ≠ "7-days:a\n".data := by
  decide

/-- C10 (amended): for every key of the matching shape `D-day[s]:R` with
`R` newline-free, the rewrite replaces the matched colon with a slash; when
such a key additionally ends in a newline (the only other way the pattern
matches), the rewrite also drops that trailing newline; and every
non-matching key is returned unchanged. -/
theorem c10_rewrite_characterization (D S R : List Char)
    (hD0 : D ≠ []) (hD : ∀ c ∈ D, c.isDigit) (hS : S = [] ∨ S = ['s'])
    (hR : containsNl R = false) :
    turn_key_into_directory_path
        (D ++ '-' :: 'd' :: 'a' :: 'y' :: (S ++ ':' :: R)) =
      D ++ '-' :: 'd' :: 'a' :: 'y' :: (S ++ '/' :: R) ∧
    turn_key_into_directory_path
        (D ++ '-' :: 'd' :: 'a' :: 'y' :: (S ++ ':' :: (R ++ ['\n']))) =
      D ++ '-' :: 'd' :: 'a' :: 'y' :: (S ++ '/' :: R) ∧
    ∀ key : List Char, matchTimeDirective [':'] key = none →
      turn_key_into_directory_path key = key := by
  refine ⟨?_, ?_, ?_⟩
  · rw [turn_key_into_directory_path.eq_def,
      matchTimeDirective_structural [':'] D S ':' R hD0 hD hS (by decide),
      if_pos (by decide), tailMatch_of_no_newline R hR]
    simp [List.append_assoc]
  · rw [turn_key_into_directory_path.eq_def,
      matchTimeDirective_structural [':'] D S ':' (R ++ ['\n']) hD0 hD hS
        (by decide),
      if_pos (by decide), tailMatch_concat_newline R hR]
    simp [List.append_assoc]
  · intro key hkey
    rw [turn_key_into_directory_path.eq_def, hkey]

/-- C10 witness: the two spec examples, derived from the characterization.
-/
theorem c10_rewrite_characterization_witness :
    turn_key_into_directory_path "7-days:foo".data = "7-days/foo".data ∧
    turn_key_into_directory_path "plain-key".data = "plain-key".data := by
  constructor
  · have h := (c10_rewrite_characterization "7".data ['s'] "foo".data
      (by decide) (by decide) (Or.inr rfl) (by decide)).1
    have e1 : "7-days:foo".data =
        "7".data ++ '-' :: 'd' :: 'a' :: 'y' :: (['s'] ++ ':' :: "foo".data) := by
      decide
    have e2 : "7-days/foo".data =
        "7".data ++ '-' :: 'd' :: 'a' :: 'y' :: (['s'] ++ '/' :: "foo".data) := by
      decide
    rw [e1, e2]
    exact h
  · exact (c10_rewrite_characterization "7".data ['s'] "x".data
      (by decide) (by decide) (Or.inr rfl) (by decide)).2.2
      "plain-key".data (by decide)

end S3Cache
